import Mathlib

/-!
Shallow embedding of the three scripts of the ChatTTS repository:
`spk_emb_demo.py`, `examples/cmd/spk_infer.py` and `webui_smoke_test.py`.

Each script is modelled as a pure function from a world (platform, environment,
file-system facts, and the outcomes of the external ChatTTS library calls) to a
run result: the ordered trace of observable steps, the process outcome (normal
exit code or uncaught exception), the files written, and the final value of the
`PYTORCH_ENABLE_MPS_FALLBACK` environment variable.
-/

namespace ChatTTSScripts

/-- A waveform returned by `chat.infer`, abstracted to its sample list. -/
abbrev Wav := List Int

/-- Python exceptions the scripts can raise. -/
inductive Exc where
  | fileNotFound (msg : String)
  | runtimeError (msg : String)
  | valueError (msg : String)
  | indexError (msg : String)
  deriving DecidableEq, Repr

/-- How the process ends: a normal exit with a code, or an uncaught exception. -/
inductive Outcome where
  | exited (code : Nat)
  | raised (e : Exc)
  deriving DecidableEq, Repr

/-- The process exit code: an uncaught Python exception exits with code 1. -/
def Outcome.exitCode : Outcome → Nat
  | .exited c => c
  | .raised _ => 1

/-- Observable steps of a script run, in program order. -/
inductive Event where
  | fileCheck (path : String) (found : Bool)
  | torchLoad (path : String)
  | chatInit
  | chatLoad (source : String) (customPath : Option String) (ok : Bool)
  | readTextFile (path : String)
  | checkModulesEv (statuses : List (String × Bool))
  | shaMapOpen (path : String)
  | checkAssetsEv (ok : Bool)
  | inferEv (texts : List String)
  | writeAudio (path : String) (sizeBytes : Nat)
  | logError (msg : String)
  deriving DecidableEq, Repr

/-- Result of running one script in a given world. -/
structure RunResult where
  events : List Event
  outcome : Outcome
  files : List (String × Nat)
  envMPSAfter : Option String
  deriving DecidableEq, Repr

/-- `os.environ.setdefault("PYTORCH_ENABLE_MPS_FALLBACK", "1")` guarded by
`sys.platform == "darwin"`: the variable after the scripts' common preamble. -/
def envAfter (darwin : Bool) (pre : Option String) : Option String :=
  if darwin then some (pre.getD "1") else pre

/-- Python `str.isspace` characters relevant to `str.strip()`. -/
def isPyWs (c : Char) : Bool :=
  c = ' ' || c = '\t' || c = '\n' || c = '\r' || c = '\x0b' || c = '\x0c'

/-- Python `str.lstrip()` on a character list. -/
def lstripL (l : List Char) : List Char := l.dropWhile isPyWs

/-- Python `str.rstrip()` on a character list. -/
def rstripL (l : List Char) : List Char := (l.reverse.dropWhile isPyWs).reverse

/-- Python `str.strip()` on a character list. -/
def stripL (l : List Char) : List Char := lstripL (rstripL l)

/-- Python `str.replace("\n", "")` on a character list. -/
def removeNL (l : List Char) : List Char := l.filter (fun c => c ≠ '\n')

/-- Python `str.startswith("#")` on a character list. -/
def startsHash (l : List Char) : Bool :=
  match l with
  | [] => false
  | c :: _ => c = '#'

/-- Iterating a text file handle: split the content into lines, each keeping
its trailing newline, as Python file iteration yields them. -/
def splitKeepEnds : List Char → List Char → List (List Char)
  | [], [] => []
  | [], acc => [acc.reverse]
  | '\n' :: rest, acc => (acc.reverse ++ ['\n']) :: splitKeepEnds rest []
  | c :: rest, acc => splitKeepEnds rest (c :: acc)

/-- The lines Python file iteration yields for a file content. -/
def fileLines (content : List Char) : List (List Char) := splitKeepEnds content []

/-- The body of the text-reading loop of `spk_emb_demo.main`: skip a line that
is blank after stripping or starts with a hash; otherwise strip newlines and
whitespace and keep the result when non-empty. -/
def demoKeep (line : List Char) : Option (List Char) :=
  if stripL line = [] || startsHash line then none
  else
    let processed := stripL (removeNL line)
    if processed = [] then none else some processed

/-- The `texts` list `spk_emb_demo.main` builds from the input file content. -/
def demoTextsL (content : List Char) : List (List Char) :=
  (fileLines content).filterMap demoKeep

/-- The `texts` list as strings, as passed to `chat.infer`. -/
def demoTexts (content : List Char) : List String :=
  (demoTextsL content).map String.mk

/-- The list described by the specification: drop every line blank after
stripping and every line whose first character is a hash, and strip each kept
line of whitespace (which includes its trailing newline). -/
def specTextsL (content : List Char) : List (List Char) :=
  ((fileLines content).filter
    (fun l => !(stripL l = []) && !(startsHash l))).map stripL

/-- The decimal digit character for a value below ten. -/
def digitChar (d : Nat) : Char :=
  match d with
  | 0 => '0' | 1 => '1' | 2 => '2' | 3 => '3' | 4 => '4'
  | 5 => '5' | 6 => '6' | 7 => '7' | 8 => '8' | _ => '9'

/-- Decimal rendering worker: structural recursion on a fuel bound that
dominates the value, so the definition evaluates in the kernel. -/
def natToDecimalAux : Nat → Nat → List Char
  | 0, _ => []
  | fuel + 1, n =>
    if n < 10 then [digitChar n]
    else natToDecimalAux fuel (n / 10) ++ [digitChar (n % 10)]

/-- Decimal rendering of a natural number, as Python's `str(int)` and hence
the f-string `f"{base_name}_{idx}{suffix}"` renders `idx`. -/
def natToDecimal (n : Nat) : List Char := natToDecimalAux (n + 1) n

/-- Numeric value of a decimal digit character, `10` on a non-digit. -/
def charDigit (c : Char) : Nat :=
  match c with
  | '0' => 0 | '1' => 1 | '2' => 2 | '3' => 3 | '4' => 4
  | '5' => 5 | '6' => 6 | '7' => 7 | '8' => 8 | '9' => 9
  | _ => 10

/-- Value of a decimal digit string. -/
def decVal (l : List Char) : Nat :=
  l.foldl (fun a c => 10 * a + charDigit c) 0

/-! ### A small model of the `pathlib` operations the demo script uses.

`OUTPUT_FILE` in `spk_emb_demo.py` is the constant relative single-component
path `spk_controlled.wav`, so the model covers paths without a directory
separator; `parent` for such a path is `.` and joining onto `.` yields the
name itself. -/

/-- Index just after the last occurrence of `c`, `none` when absent. -/
def lastIdx? (c : Char) (l : List Char) : Option Nat :=
  match l.reverse.findIdx? (fun x => x = c) with
  | some j => some (l.length - 1 - j)
  | none => none

/-- The split position of `pathlib`: the last dot, when it is neither the
first nor the last character of the name. -/
def pySuffixIdx (name : List Char) : Option Nat :=
  match lastIdx? '.' name with
  | some i => if 0 < i && i + 1 < name.length then some i else none
  | none => none

/-- `pathlib.PurePath.suffix` of a single-component name. -/
def pathSuffix (name : List Char) : List Char :=
  match pySuffixIdx name with
  | some i => name.drop i
  | none => []

/-- `pathlib.PurePath.stem` of a single-component name. -/
def pathStem (name : List Char) : List Char :=
  match pySuffixIdx name with
  | some i => name.take i
  | none => name

/-! ### `spk_emb_demo.py` -/

/-- `SPEAKER_PATH` of `spk_emb_demo.py`. -/
def SPEAKER_PATH : String := "pt_file/seed_2279_restored_emb.pt"

/-- `TEXT_FILE` of `spk_emb_demo.py`. -/
def TEXT_FILE : String := "input_texts.txt"

/-- `OUTPUT_FILE` of `spk_emb_demo.py`. -/
def OUTPUT_FILE : String := "spk_controlled.wav"

/-- The characters of `OUTPUT_FILE`. -/
def outChars : List Char := OUTPUT_FILE.toList

/-- `suffix = OUTPUT_FILE.suffix or ".wav"`. -/
def demoSuffix : List Char :=
  if pathSuffix outChars = [] then ".wav".toList else pathSuffix outChars

/-- `base_name = OUTPUT_FILE.stem if OUTPUT_FILE.suffix else OUTPUT_FILE.name or "spk_output"`:
for the single-component `OUTPUT_FILE` the `name` is the whole path. -/
def demoBase : List Char :=
  if pathSuffix outChars = [] then
    (if outChars = [] then "spk_output".toList else outChars)
  else pathStem outChars

/-- `parent / f"{base_name}_{idx}{suffix}"` with `parent = Path(".")`:
joining a name onto `.` yields the name itself. -/
def demoTarget (idx : Nat) : String :=
  String.mk (demoBase ++ ('_' :: natToDecimal idx) ++ demoSuffix)

/-- The `targets` list of `spk_emb_demo.main` for `n` returned waveforms. -/
def demoTargets (n : Nat) : List String :=
  if n = 1 then [OUTPUT_FILE]
  else (List.range n).map demoTarget

/-- Size in bytes of the audio file written for a waveform: a WAV header plus
the float32 samples, in particular always positive. -/
def wavBytes (w : Wav) : Nat := 44 + 4 * w.length

/-- The world a `spk_emb_demo.py` run observes: platform, prior environment,
file-system facts, and outcomes of the ChatTTS library calls. -/
structure DemoWorld where
  darwin : Bool
  envMPS : Option String
  speakerFound : Bool
  loadOk : Bool
  textFound : Bool
  textContent : List Char
  wavs : List Wav

/-- `spk_emb_demo.main`, step for step: the darwin environment preamble, the
speaker-embedding existence check (raising `FileNotFoundError`), `torch.load`,
`ChatTTS.Chat()` and `chat.load(source="local")` (raising `RuntimeError` on a
false return), the text-file existence check (raising `FileNotFoundError`),
the line-filtering loop (raising `ValueError` on an empty list), `chat.infer`,
and one `sf.write` per waveform-target pair. -/
def demoRun (w : DemoWorld) : RunResult :=
  let env1 := envAfter w.darwin w.envMPS
  if !w.speakerFound then
    ⟨[.fileCheck SPEAKER_PATH false],
     .raised (.fileNotFound "Speaker embedding file not found"), [], env1⟩
  else
    let evs1 : List Event :=
      [.fileCheck SPEAKER_PATH true, .torchLoad SPEAKER_PATH, .chatInit,
       .chatLoad "local" none w.loadOk]
    if !w.loadOk then
      ⟨evs1, .raised (.runtimeError "Failed to load ChatTTS weights from local asset directory."),
       [], env1⟩
    else if !w.textFound then
      ⟨evs1 ++ [.fileCheck TEXT_FILE false],
       .raised (.fileNotFound "Input text file not found"), [], env1⟩
    else
      let texts := demoTexts w.textContent
      let evs2 := evs1 ++ [.fileCheck TEXT_FILE true, .readTextFile TEXT_FILE]
      if texts = [] then
        ⟨evs2, .raised (.valueError "No valid text lines found"), [], env1⟩
      else
        let writes := (w.wavs.zip (demoTargets w.wavs.length)).map
          (fun p => (p.2, wavBytes p.1))
        ⟨evs2 ++ [.inferEv texts] ++ writes.map (fun f => Event.writeAudio f.1 f.2),
         .exited 0, writes, env1⟩

/-! ### `examples/cmd/spk_infer.py` -/

/-- The `--source` choices of `spk_infer.py`. -/
inductive Source where
  | localSrc
  | huggingface
  | custom
  deriving DecidableEq, Repr

/-- The string value of a `--source` choice. -/
def Source.str : Source → String
  | .localSrc => "local"
  | .huggingface => "huggingface"
  | .custom => "custom"

/-- The argument namespace `parse_args` returns. -/
structure InferArgs where
  spkPath : String
  text : String
  output : String
  source : Source
  customPath : String
  deriving DecidableEq, Repr

/-- The defaults of `parse_args` in `spk_infer.py`. -/
def defaultInferArgs : InferArgs :=
  ⟨"pt/seed_2279_restored_emb.pt", "Hello from ChatTTS with a restored timbre.",
   "spk_control.wav", .localSrc, ""⟩

/-- Which `chat.load` call `spk_infer.main` makes: source string and optional
`custom_path` keyword, following
`if args.source == "custom" and args.custom_path: ... else chat.load(source=args.source)`. -/
def loadCall (a : InferArgs) : String × Option String :=
  if a.source = .custom && a.customPath ≠ "" then ("custom", some a.customPath)
  else (a.source.str, none)

/-- The world a `spk_infer.py` run observes. -/
structure InferWorld where
  darwin : Bool
  envMPS : Option String
  args : InferArgs
  spkFound : Bool
  loadOk : Bool
  wavs : List Wav

/-- `spk_infer.main`, step for step: darwin preamble, argument parsing, the
speaker-embedding existence check (raising `FileNotFoundError`), `torch.load`,
`ChatTTS.Chat()`, the selected `chat.load` call (raising `RuntimeError` on a
false return), `chat.infer([args.text])`, indexing `wavs[0]` (raising
`IndexError` when empty), and `torchaudio.save`. -/
def inferRun (w : InferWorld) : RunResult :=
  let env1 := envAfter w.darwin w.envMPS
  if !w.spkFound then
    ⟨[.fileCheck w.args.spkPath false],
     .raised (.fileNotFound "Speaker embedding file not found"), [], env1⟩
  else
    let lc := loadCall w.args
    let evs1 : List Event :=
      [.fileCheck w.args.spkPath true, .torchLoad w.args.spkPath, .chatInit,
       .chatLoad lc.1 lc.2 w.loadOk]
    if !w.loadOk then
      ⟨evs1, .raised (.runtimeError "Failed to load ChatTTS weights. Check --source/--custom-path."),
       [], env1⟩
    else
      match w.wavs with
      | [] =>
        ⟨evs1 ++ [.inferEv [w.args.text]],
         .raised (.indexError "list index out of range"), [], env1⟩
      | wav0 :: _ =>
        ⟨evs1 ++ [.inferEv [w.args.text],
                  .writeAudio w.args.output (wavBytes wav0)],
         .exited 0, [(w.args.output, wavBytes wav0)], env1⟩

/-! ### `webui_smoke_test.py` -/

/-- `REQUIRED_MODULES` of `webui_smoke_test.py`. -/
def REQUIRED_MODULES : List String :=
  ["torch", "torchaudio", "gradio", "av", "pybase16384",
   "vector_quantize_pytorch", "vocos"]

/-- `check_modules`: try importing every required module and record which
succeeded (the repr of the failure is dropped from the model). -/
def check_modules (importable : String → Bool) : List (String × Bool) :=
  REQUIRED_MODULES.map (fun m => (m, importable m))

/-- The path of the sha256 manifest opened by `ensure_chattts`, relative to
the repository root. -/
def shaMapPath : String := "ChatTTS/res/sha256_map.json"

/-- The argument namespace of `webui_smoke_test.main`. -/
structure WebuiArgs where
  modelRoot : String
  text : String
  output : String
  speaker : Option String
  skipAudio : Bool

/-- The world a `webui_smoke_test.py` run observes: importability of each
required module, importability of `ChatTTS` itself, presence of the sha256
manifest, and the outcomes of `check_all_assets`, `chat.load` and
`chat.infer`. -/
structure WebuiWorld where
  darwin : Bool
  envMPS : Option String
  args : WebuiArgs
  importable : String → Bool
  chatImportOk : Bool
  shaMapFound : Bool
  assetsOk : Bool
  loadOk : Bool
  wavs : List Wav

/-- `webui_smoke_test.main` together with `ensure_chattts`, step for step:
argument parsing, darwin preamble, `check_modules` with per-module logging and
an early `return 1` when any module is missing, an early `return 0` under
`--skip-audio`; then `ensure_chattts`: the guarded `import ChatTTS` (logging
and returning `False` on failure), opening the sha256 manifest (an unguarded
`open`, so a missing manifest raises `FileNotFoundError`), `check_all_assets`
(logging and returning `False` when it fails), `ChatTTS.Chat()` and
`chat.load(source="custom", custom_path=str(model_root))` (logging and
returning `False` on a false return), `chat.infer([text])`, `wavs[0]`
(raising `IndexError` when empty) and `torchaudio.save`; `main` turns the
boolean into exit code 0 or 1, and `raise SystemExit(main())` makes that the
process exit code. -/
def webuiRun (w : WebuiWorld) : RunResult :=
  let env1 := envAfter w.darwin w.envMPS
  let statuses := check_modules w.importable
  let missing := (statuses.filter (fun s => !s.2)).map (fun s => s.1)
  let evs0 : List Event := [.checkModulesEv statuses]
  if missing ≠ [] then
    ⟨evs0 ++ [.logError "Install the missing modules above"], .exited 1, [], env1⟩
  else if w.args.skipAudio then
    ⟨evs0, .exited 0, [], env1⟩
  else if !w.chatImportOk then
    ⟨evs0 ++ [.logError "Failed to import ChatTTS", .logError "Smoke test failed"],
     .exited 1, [], env1⟩
  else if !w.shaMapFound then
    ⟨evs0 ++ [.shaMapOpen shaMapPath],
     .raised (.fileNotFound "sha256_map.json"), [], env1⟩
  else
    let evs1 := evs0 ++ [.shaMapOpen shaMapPath, .checkAssetsEv w.assetsOk]
    if !w.assetsOk then
      ⟨evs1 ++ [.logError "Missing weights", .logError "Smoke test failed"],
       .exited 1, [], env1⟩
    else
      let evs2 := evs1 ++
        [.chatInit, .chatLoad "custom" (some w.args.modelRoot) w.loadOk]
      if !w.loadOk then
        ⟨evs2 ++ [.logError "ChatTTS load failed even though files were detected.",
                  .logError "Smoke test failed"],
         .exited 1, [], env1⟩
      else
        match w.wavs with
        | [] =>
          ⟨evs2 ++ [.inferEv [w.args.text]],
           .raised (.indexError "list index out of range"), [], env1⟩
        | wav0 :: _ =>
          ⟨evs2 ++ [.inferEv [w.args.text],
                    .writeAudio w.args.output (wavBytes wav0)],
           .exited 0, [(w.args.output, wavBytes wav0)], env1⟩

/-! ### Trace observations shared by several claims. -/

/-- Is the event an inference call? -/
def isInfer : Event → Bool
  | .inferEv _ => true
  | _ => false

/-- Does the trace contain an inference call? -/
def hasInfer (evs : List Event) : Bool := evs.any isInfer

/-- Is the event an input-file existence check? -/
def isFileCheck : Event → Bool
  | .fileCheck _ _ => true
  | _ => false

/-- Is the event part of model-client initialization (`ChatTTS.Chat()` or
`chat.load`)? -/
def isModelInit : Event → Bool
  | .chatInit => true
  | .chatLoad _ _ _ => true
  | _ => false

/-- Does an input-file existence check occur strictly after a model-client
initialization step? -/
def fileCheckAfterInit (evs : List Event) : Bool :=
  ((evs.dropWhile (fun e => !isModelInit e)).drop 1).any isFileCheck

/-- The events preceding the first inference call. -/
def beforeInfer (evs : List Event) : List Event :=
  evs.takeWhile (fun e => !isInfer e)

/-- Is the event a `check_modules` report in which every module imported? -/
def isModulesAllOk : Event → Bool
  | .checkModulesEv statuses => statuses.all (fun s => s.2)
  | _ => false

/-- Is the event a successful `check_all_assets` verification? -/
def isAssetsOkEv : Event → Bool
  | .checkAssetsEv ok => ok
  | _ => false

/-- The phase of the order claimed by the specification: configuration and
dependency checks, input-file location and validation, model-client
initialization, inference, output persistence. Logging carries no phase. -/
def phaseOf : Event → Option Nat
  | .checkModulesEv _ => some 1
  | .fileCheck _ _ => some 1
  | .readTextFile _ => some 1
  | .torchLoad _ => some 1
  | .shaMapOpen _ => some 1
  | .checkAssetsEv _ => some 1
  | .chatInit => some 2
  | .chatLoad _ _ _ => some 2
  | .inferEv _ => some 3
  | .writeAudio _ _ => some 4
  | .logError _ => none

/-- The phase sequence of a trace. -/
def phases (evs : List Event) : List Nat := evs.filterMap phaseOf

/-- Is the list of phases nondecreasing? -/
def isSortedLe : List Nat → Bool
  | [] => true
  | [_] => true
  | a :: b :: rest => decide (a ≤ b) && isSortedLe (b :: rest)

/-- The actual phase order of `spk_emb_demo.py`: the input text file is
located, validated and read only after the model client is initialized. -/
def demoPhaseOf : Event → Option Nat
  | .fileCheck p _ => if p = TEXT_FILE then some 3 else some 1
  | .readTextFile _ => some 3
  | .torchLoad _ => some 1
  | .chatInit => some 2
  | .chatLoad _ _ _ => some 2
  | .inferEv _ => some 4
  | .writeAudio _ _ => some 5
  | _ => none

/-- The phase sequence of a demo trace under the demo-specific order. -/
def demoPhases (evs : List Event) : List Nat := evs.filterMap demoPhaseOf

/-! ### Concrete worlds used as counterexamples and witnesses -/

/-- The webui argument namespace with default-like values and no
`--skip-audio`. -/
def webuiArgsRun : WebuiArgs := ⟨"root", "sample", "smoke_test.wav", none, false⟩

/-- A webui world in which `torch` fails to import and everything else is
fine. -/
def wTorchMissing : WebuiWorld :=
  ⟨false, none, webuiArgsRun, fun m => decide (m ≠ "torch"), true, true, true,
   true, [[1, 2]]⟩

/-- A webui world in which every module imports but `check_all_assets`
fails. -/
def wAssetsBad : WebuiWorld :=
  ⟨false, none, webuiArgsRun, fun _ => true, true, true, false, true, [[1, 2]]⟩

/-- A webui world in which everything succeeds. -/
def wWebuiGood : WebuiWorld :=
  ⟨false, none, webuiArgsRun, fun _ => true, true, true, true, true, [[1, 2]]⟩

/-- A webui world with `--skip-audio` given and all modules importable. -/
def wWebuiSkip : WebuiWorld :=
  ⟨false, none, ⟨"root", "sample", "smoke_test.wav", none, true⟩,
   fun _ => true, true, true, true, true, []⟩

/-- A webui world whose sha256 manifest is missing. -/
def wWebuiNoSha : WebuiWorld :=
  ⟨false, none, webuiArgsRun, fun _ => true, true, false, true, true, []⟩

/-- A webui world where `chat.load` fails. -/
def wWebuiLoadFail : WebuiWorld :=
  ⟨false, none, webuiArgsRun, fun _ => true, true, true, true, false, []⟩

/-- A demo world in which everything succeeds and the input file has two
valid text lines, so `chat.infer` returns two waveforms. -/
def wDemoTwo : DemoWorld :=
  ⟨false, none, true, true, true, ("a\nb\n").toList, [[1], [2]]⟩

/-- A demo world with a single text line and waveform. -/
def wDemoOne : DemoWorld :=
  ⟨false, none, true, true, true, ("a\n").toList, [[1]]⟩

/-- A demo world whose input file holds only a comment and a blank line. -/
def wDemoEmpty : DemoWorld :=
  ⟨false, none, true, true, true, ("# c\n  \n").toList, []⟩

/-- A demo world whose speaker-embedding file is missing. -/
def wDemoNoSpk : DemoWorld := ⟨false, none, false, true, true, [], []⟩

/-- A demo world where `chat.load` fails. -/
def wDemoLoadFail : DemoWorld := ⟨false, none, true, false, true, [], []⟩

/-- A demo world whose input text file is missing. -/
def wDemoNoText : DemoWorld := ⟨false, none, true, true, false, [], []⟩

/-- An infer world in which everything succeeds with default arguments. -/
def wInferGood : InferWorld := ⟨false, none, defaultInferArgs, true, true, [[1, 2]]⟩

/-- An infer world whose speaker-embedding file is missing. -/
def wInferNoSpk : InferWorld := ⟨false, none, defaultInferArgs, false, true, []⟩

/-- An infer world where `chat.load` fails. -/
def wInferLoadFail : InferWorld := ⟨false, none, defaultInferArgs, true, false, []⟩

/-- Arguments selecting `--source=custom` with an empty `--custom-path`. -/
def argsCustomEmpty : InferArgs := ⟨"p.pt", "hi", "o.wav", .custom, ""⟩

/-- An infer world running with `--source=custom` and empty
`--custom-path`. -/
def wInferCustomEmpty : InferWorld :=
  ⟨false, none, argsCustomEmpty, true, true, [[1]]⟩

/-- A line as file iteration yields it: a newline-free body, optionally
followed by one trailing newline. -/
def LineOk (l : List Char) : Prop :=
  ∃ m, '\n' ∉ m ∧ (l = m ∨ l = m ++ ['\n'])

/-! ### Supporting lemmas -/

theorem rstripL_append_ws (xs : List Char) (c : Char) (h : isPyWs c = true) :
    rstripL (xs ++ [c]) = rstripL xs := by
  simp [rstripL, List.dropWhile_cons, h]

theorem stripL_append_ws (xs : List Char) (c : Char) (h : isPyWs c = true) :
    stripL (xs ++ [c]) = stripL xs := by
  simp [stripL, rstripL_append_ws xs c h]

theorem removeNL_of_not_mem (m : List Char) (h : '\n' ∉ m) : removeNL m = m := by
  refine List.filter_eq_self.mpr (fun c hc => ?_)
  simp only [ne_eq, decide_eq_true_eq]
  rintro rfl
  exact h hc

theorem splitKeepEnds_lineOk (cs : List Char) :
    ∀ (acc : List Char), '\n' ∉ acc → ∀ l ∈ splitKeepEnds cs acc, LineOk l := by
  induction cs with
  | nil =>
    intro acc hacc l hl
    match acc with
    | [] => simp [splitKeepEnds] at hl
    | a :: acc =>
      simp only [splitKeepEnds, List.mem_singleton] at hl
      subst hl
      refine ⟨(a :: acc).reverse, ?_, Or.inl rfl⟩
      have h3 : ¬ '\n' = a ∧ '\n' ∉ acc := by simpa using hacc
      simpa using And.intro h3.2 h3.1
  | cons c rest ih =>
    intro acc hacc l hl
    by_cases hc : c = '\n'
    · subst hc
      simp only [splitKeepEnds, List.mem_cons] at hl
      rcases hl with rfl | hl
      · exact ⟨acc.reverse, by simpa using hacc, Or.inr rfl⟩
      · exact ih [] (by simp) l hl
    · rw [show splitKeepEnds (c :: rest) acc = splitKeepEnds rest (c :: acc) from by
        simp [splitKeepEnds, hc]] at hl
      refine ih (c :: acc) ?_ l hl
      simp only [List.mem_cons, not_or]
      exact ⟨fun hh => hc hh.symm, hacc⟩

theorem fileLines_lineOk (content : List Char) :
    ∀ l ∈ fileLines content, LineOk l :=
  splitKeepEnds_lineOk content [] (by simp)

theorem stripL_removeNL_of_lineOk (l : List Char) (hl : LineOk l) :
    stripL (removeNL l) = stripL l := by
  obtain ⟨m, hm, rfl | rfl⟩ := hl
  · rw [removeNL_of_not_mem _ hm]
  · have h2 := removeNL_of_not_mem m hm
    have h1 : removeNL (m ++ ['\n']) = m := by
      simp only [removeNL] at h2 ⊢
      rw [List.filter_append, h2]
      simp
    rw [h1, stripL_append_ws m '\n' (by decide)]

theorem demoKeep_of_lineOk (l : List Char) (hl : LineOk l) :
    demoKeep l = if stripL l = [] || startsHash l then none else some (stripL l) := by
  unfold demoKeep
  rw [stripL_removeNL_of_lineOk l hl]
  by_cases h : (stripL l = [] || startsHash l) = true
  · simp [h]
  · have h2 : ¬ stripL l = [] := by
      intro hn
      exact h (by simp [hn])
    simp [h, h2]

theorem filter_map_eq_filterMap {α β : Type} (p : α → Bool) (f : α → β) (l : List α) :
    (l.filter p).map f = l.filterMap (fun x => if p x then some (f x) else none) := by
  induction l with
  | nil => rfl
  | cons a l ih => by_cases h : p a <;> simp [h, ih]

/-- The central C8 fact: the `texts` list the demo script builds equals the
list described by the specification. -/
theorem demoTextsL_eq_specTextsL (content : List Char) :
    demoTextsL content = specTextsL content := by
  unfold demoTextsL specTextsL
  rw [filter_map_eq_filterMap]
  refine List.filterMap_congr (fun l hl => ?_)
  rw [demoKeep_of_lineOk l (fileLines_lineOk content l hl)]
  by_cases h1 : stripL l = []
  · simp [h1]
  · by_cases h2 : startsHash l = true
    · simp [h1, h2]
    · simp [h1, h2]

theorem charDigit_digitChar (d : Nat) (h : d < 10) : charDigit (digitChar d) = d := by
  interval_cases d <;> rfl

theorem decVal_append (l : List Char) (c : Char) :
    decVal (l ++ [c]) = 10 * decVal l + charDigit c := by
  simp [decVal]

theorem decVal_natToDecimalAux (fuel : Nat) :
    ∀ n, n < fuel → decVal (natToDecimalAux fuel n) = n := by
  induction fuel with
  | zero => omega
  | succ fuel ih =>
    intro n hn
    simp only [natToDecimalAux]
    by_cases h : n < 10
    · simp [h, decVal, charDigit_digitChar n h]
    · have hdiv : n / 10 < n := Nat.div_lt_self (by omega) (by omega)
      rw [if_neg h, decVal_append, ih (n / 10) (by omega),
        charDigit_digitChar (n % 10) (Nat.mod_lt n (by omega))]
      omega

theorem decVal_natToDecimal (n : Nat) : decVal (natToDecimal n) = n :=
  decVal_natToDecimalAux (n + 1) n (Nat.lt_succ_self n)

theorem natToDecimal_injective : Function.Injective natToDecimal := by
  intro a b h
  rw [← decVal_natToDecimal a, ← decVal_natToDecimal b, h]

theorem demoTarget_injective : Function.Injective demoTarget := by
  intro i j h
  unfold demoTarget at h
  injection h with h
  have h1 := List.append_cancel_right h
  have h2 := List.append_cancel_left h1
  exact natToDecimal_injective (by injection h2)

theorem missing_nil_iff (l : List (String × Bool)) :
    ((l.filter (fun s => !s.2)).map (fun s => s.1) = []) ↔
      l.all (fun s => s.2) = true := by
  rw [List.map_eq_nil_iff, List.filter_eq_nil_iff, List.all_eq_true]
  constructor
  · intro h s hs
    simpa using h s hs
  · intro h s hs
    simpa using h s hs

theorem demoRun_env (w : DemoWorld) :
    (demoRun w).envMPSAfter = envAfter w.darwin w.envMPS := by
  obtain ⟨dar, env, sf, lo, tf, tc, wavs⟩ := w
  by_cases ht : demoTexts tc = [] <;>
    cases sf <;> cases lo <;> cases tf <;>
      simp [demoRun, ht]

theorem inferRun_env (w : InferWorld) :
    (inferRun w).envMPSAfter = envAfter w.darwin w.envMPS := by
  obtain ⟨dar, env, args, sf, lo, wavs⟩ := w
  cases sf <;> cases lo <;> cases wavs <;> simp [inferRun]

theorem webuiRun_env (w : WebuiWorld) :
    (webuiRun w).envMPSAfter = envAfter w.darwin w.envMPS := by
  obtain ⟨dar, env, ⟨mr, tx, out, spk, skip⟩, imp, ci, sha, ao, lo, wavs⟩ := w
  by_cases hm :
      ((check_modules imp).filter (fun s => !s.2)).map (fun s => s.1) = [] <;>
    cases skip <;> cases ci <;> cases sha <;> cases ao <;> cases lo <;>
      cases wavs <;> simp [webuiRun, hm]

theorem envAfter_cases (darwin : Bool) (pre : Option String) :
    envAfter darwin pre =
      match darwin, pre with
      | true, some v => some v
      | true, none => some "1"
      | false, p => p := by
  cases darwin <;> cases pre <;> rfl

theorem demoRun_exit0_iff (w : DemoWorld) :
    (demoRun w).outcome.exitCode = 0 ↔
      (w.speakerFound = true ∧ w.loadOk = true ∧ w.textFound = true ∧
       demoTexts w.textContent ≠ []) := by
  obtain ⟨dar, env, sf, lo, tf, tc, wavs⟩ := w
  by_cases ht : demoTexts tc = [] <;>
    cases sf <;> cases lo <;> cases tf <;>
      simp [demoRun, Outcome.exitCode, ht]

theorem inferRun_exit0_iff (w : InferWorld) :
    (inferRun w).outcome.exitCode = 0 ↔
      (w.spkFound = true ∧ w.loadOk = true ∧ w.wavs ≠ []) := by
  obtain ⟨dar, env, args, sf, lo, wavs⟩ := w
  cases sf <;> cases lo <;> cases wavs <;>
    simp [inferRun, Outcome.exitCode]

theorem webuiRun_exit0_iff (w : WebuiWorld) :
    (webuiRun w).outcome.exitCode = 0 ↔
      ((check_modules w.importable).all (fun s => s.2) = true ∧
       (w.args.skipAudio = true ∨
        (w.chatImportOk = true ∧ w.shaMapFound = true ∧ w.assetsOk = true ∧
         w.loadOk = true ∧ w.wavs ≠ []))) := by
  obtain ⟨dar, env, ⟨mr, tx, out, spk, skip⟩, imp, ci, sha, ao, lo, wavs⟩ := w
  by_cases hm : (check_modules imp).all (fun s => s.2) = true
  · have hmiss : ((check_modules imp).filter (fun s => !s.2)).map (fun s => s.1) = [] :=
      (missing_nil_iff _).mpr hm
    cases skip <;> cases ci <;> cases sha <;> cases ao <;> cases lo <;>
      cases wavs <;> simp [webuiRun, Outcome.exitCode, hmiss, hm]
  · have hmiss : ¬ ((check_modules imp).filter (fun s => !s.2)).map (fun s => s.1) = [] :=
      fun hh => hm ((missing_nil_iff _).mp hh)
    simp [webuiRun, Outcome.exitCode, hmiss, hm]

theorem isSortedLe_cons_replicate (a b k : Nat) (h : a ≤ b) :
    isSortedLe (a :: List.replicate k b) = true := by
  induction k generalizing a with
  | zero => rfl
  | succ k ih =>
    simp only [List.replicate_succ, isSortedLe]
    simp [h, ih b (Nat.le_refl b)]

theorem demo_writes_phases (l : List (Wav × String)) :
    List.filterMap (demoPhaseOf ∘ (fun f => Event.writeAudio f.1 f.2) ∘
      (fun p => (p.2, wavBytes p.1))) l = List.replicate l.length 5 := by
  induction l with
  | nil => rfl
  | cons a l ih => simp [demoPhaseOf, ih, List.replicate_succ, Function.comp]

theorem inferRun_phases_sorted (w : InferWorld) :
    isSortedLe (phases (inferRun w).events) = true := by
  obtain ⟨dar, env, args, sf, lo, wavs⟩ := w
  cases sf <;> cases lo <;> cases wavs <;>
    simp +decide [inferRun, phases, phaseOf, isSortedLe]

theorem inferRun_no_check_after_init (w : InferWorld) :
    fileCheckAfterInit (inferRun w).events = false := by
  obtain ⟨dar, env, args, sf, lo, wavs⟩ := w
  cases sf <;> cases lo <;> cases wavs <;>
    simp [inferRun, fileCheckAfterInit, isModelInit, isFileCheck]

theorem webuiRun_phases_sorted (w : WebuiWorld) :
    isSortedLe (phases (webuiRun w).events) = true := by
  obtain ⟨dar, env, ⟨mr, tx, out, spk, skip⟩, imp, ci, sha, ao, lo, wavs⟩ := w
  by_cases hm :
      ((check_modules imp).filter (fun s => !s.2)).map (fun s => s.1) = [] <;>
    cases skip <;> cases ci <;> cases sha <;> cases ao <;> cases lo <;>
      cases wavs <;> simp +decide [webuiRun, phases, phaseOf, isSortedLe, hm]

theorem webuiRun_no_check_after_init (w : WebuiWorld) :
    fileCheckAfterInit (webuiRun w).events = false := by
  obtain ⟨dar, env, ⟨mr, tx, out, spk, skip⟩, imp, ci, sha, ao, lo, wavs⟩ := w
  by_cases hm :
      ((check_modules imp).filter (fun s => !s.2)).map (fun s => s.1) = [] <;>
    cases skip <;> cases ci <;> cases sha <;> cases ao <;> cases lo <;>
      cases wavs <;>
        simp [webuiRun, fileCheckAfterInit, isModelInit, isFileCheck, hm]

theorem demoRun_phases_sorted (w : DemoWorld) :
    isSortedLe (demoPhases (demoRun w).events) = true := by
  obtain ⟨dar, env, sf, lo, tf, tc, wavs⟩ := w
  by_cases ht : demoTexts tc = [] <;>
    cases sf <;> cases lo <;> cases tf <;>
      (simp +decide [demoRun, demoPhases, demoPhaseOf, isSortedLe, ht,
         List.filterMap_append]
       all_goals
         rw [demo_writes_phases]
         exact isSortedLe_cons_replicate 4 5 _ (by omega))

theorem demoRun_infer_texts (w : DemoWorld) (ts : List String)
    (h : Event.inferEv ts ∈ (demoRun w).events) :
    ts = (specTextsL w.textContent).map String.mk := by
  rw [← demoTextsL_eq_specTextsL]
  obtain ⟨dar, env, sf, lo, tf, tc, wavs⟩ := w
  by_cases ht : demoTextsL tc = [] <;>
    cases sf <;> cases lo <;> cases tf <;>
      (simp [demoRun, demoTexts, ht] at h ⊢
       try exact h)

theorem demoRun_no_speaker (w : DemoWorld) (h : w.speakerFound = false) :
    demoRun w = ⟨[.fileCheck SPEAKER_PATH false],
      .raised (.fileNotFound "Speaker embedding file not found"), [],
      envAfter w.darwin w.envMPS⟩ := by
  obtain ⟨dar, env, sf, lo, tf, tc, wavs⟩ := w
  subst h
  simp [demoRun]

theorem demoRun_load_fail (w : DemoWorld) (h1 : w.speakerFound = true)
    (h2 : w.loadOk = false) :
    demoRun w = ⟨[.fileCheck SPEAKER_PATH true, .torchLoad SPEAKER_PATH,
      .chatInit, .chatLoad "local" none false],
      .raised (.runtimeError "Failed to load ChatTTS weights from local asset directory."),
      [], envAfter w.darwin w.envMPS⟩ := by
  obtain ⟨dar, env, sf, lo, tf, tc, wavs⟩ := w
  subst h1
  subst h2
  simp [demoRun]

theorem demoRun_no_text (w : DemoWorld) (h1 : w.speakerFound = true)
    (h2 : w.loadOk = true) (h3 : w.textFound = false) :
    demoRun w = ⟨[.fileCheck SPEAKER_PATH true, .torchLoad SPEAKER_PATH,
      .chatInit, .chatLoad "local" none true, .fileCheck TEXT_FILE false],
      .raised (.fileNotFound "Input text file not found"), [],
      envAfter w.darwin w.envMPS⟩ := by
  obtain ⟨dar, env, sf, lo, tf, tc, wavs⟩ := w
  subst h1
  subst h2
  subst h3
  simp [demoRun]

theorem inferRun_no_spk (w : InferWorld) (h : w.spkFound = false) :
    inferRun w = ⟨[.fileCheck w.args.spkPath false],
      .raised (.fileNotFound "Speaker embedding file not found"), [],
      envAfter w.darwin w.envMPS⟩ := by
  obtain ⟨dar, env, args, sf, lo, wavs⟩ := w
  subst h
  simp [inferRun]

theorem inferRun_load_fail (w : InferWorld) (h1 : w.spkFound = true)
    (h2 : w.loadOk = false) :
    inferRun w = ⟨[.fileCheck w.args.spkPath true, .torchLoad w.args.spkPath,
      .chatInit, .chatLoad (loadCall w.args).1 (loadCall w.args).2 false],
      .raised (.runtimeError "Failed to load ChatTTS weights. Check --source/--custom-path."),
      [], envAfter w.darwin w.envMPS⟩ := by
  obtain ⟨dar, env, args, sf, lo, wavs⟩ := w
  subst h1
  subst h2
  simp [inferRun]

theorem webuiRun_modules_fail (w : WebuiWorld)
    (hm : (check_modules w.importable).all (fun s => s.2) = false) :
    (webuiRun w).outcome = .exited 1 ∧ hasInfer (webuiRun w).events = false := by
  have hmiss : ¬ ((check_modules w.importable).filter (fun s => !s.2)).map
      (fun s => s.1) = [] := by
    intro hh
    rw [(missing_nil_iff _).mp hh] at hm
    cases hm
  simp [webuiRun, hmiss, hasInfer, isInfer]

theorem webuiRun_assets_fail (w : WebuiWorld) (hskip : w.args.skipAudio = false)
    (hsha : w.shaMapFound = true) (hao : w.assetsOk = false) :
    (webuiRun w).outcome = .exited 1 ∧ hasInfer (webuiRun w).events = false := by
  obtain ⟨dar, env, ⟨mr, tx, out, spk, skip⟩, imp, ci, sha, ao, lo, wavs⟩ := w
  simp only at hskip hsha hao
  subst hskip
  subst hsha
  subst hao
  by_cases hm :
      ((check_modules imp).filter (fun s => !s.2)).map (fun s => s.1) = [] <;>
    cases ci <;> simp [webuiRun, hm, hasInfer, isInfer]

theorem webuiRun_load_fail (w : WebuiWorld) (hskip : w.args.skipAudio = false)
    (hsha : w.shaMapFound = true) (hlo : w.loadOk = false) :
    (webuiRun w).outcome = .exited 1 ∧ hasInfer (webuiRun w).events = false := by
  obtain ⟨dar, env, ⟨mr, tx, out, spk, skip⟩, imp, ci, sha, ao, lo, wavs⟩ := w
  simp only at hskip hsha hlo
  subst hskip
  subst hsha
  subst hlo
  by_cases hm :
      ((check_modules imp).filter (fun s => !s.2)).map (fun s => s.1) = [] <;>
    cases ci <;> cases ao <;> simp [webuiRun, hm, hasInfer, isInfer]

theorem outcome_eq_of_exitCode_zero (o : Outcome) (h : o.exitCode = 0) :
    o = .exited 0 := by
  cases o with
  | exited c =>
    simp only [Outcome.exitCode] at h
    rw [h]
  | raised e => simp [Outcome.exitCode] at h

theorem demoRun_empty_texts (w : DemoWorld) (h1 : w.speakerFound = true)
    (h2 : w.loadOk = true) (h3 : w.textFound = true)
    (h4 : demoTextsL w.textContent = []) :
    (demoRun w).outcome = .raised (.valueError "No valid text lines found") ∧
    hasInfer (demoRun w).events = false := by
  obtain ⟨dar, env, sf, lo, tf, tc, wavs⟩ := w
  simp only at h1 h2 h3 h4
  subst h1
  subst h2
  subst h3
  simp [demoRun, demoTexts, h4, hasInfer, isInfer]

theorem webuiRun_infer_checks (w : WebuiWorld)
    (h : hasInfer (webuiRun w).events = true) :
    (beforeInfer (webuiRun w).events).any isModulesAllOk = true ∧
    (beforeInfer (webuiRun w).events).any isAssetsOkEv = true := by
  obtain ⟨dar, env, ⟨mr, tx, out, spk, skip⟩, imp, ci, sha, ao, lo, wavs⟩ := w
  by_cases hm : (check_modules imp).all (fun s => s.2) = true
  · have hmiss : ((check_modules imp).filter (fun s => !s.2)).map (fun s => s.1) = [] :=
      (missing_nil_iff _).mpr hm
    cases skip <;> cases ci <;> cases sha <;> cases ao <;> cases lo <;>
      cases wavs <;>
        simp [webuiRun, hmiss, hm, hasInfer, isInfer, beforeInfer,
          isModulesAllOk, isAssetsOkEv, List.takeWhile_cons] at h ⊢
  · have hmiss : ¬ ((check_modules imp).filter (fun s => !s.2)).map (fun s => s.1) = [] :=
      fun hh => hm ((missing_nil_iff _).mp hh)
    simp [webuiRun, hmiss, hasInfer, isInfer] at h

theorem demoTargets_one : demoTargets 1 = [OUTPUT_FILE] := rfl

theorem demoTargets_of_ne_one (n : Nat) (h : n ≠ 1) :
    demoTargets n = (List.range n).map demoTarget := by
  simp [demoTargets, h]

theorem demoTargets_length (n : Nat) : (demoTargets n).length = if n = 1 then 1 else n := by
  by_cases h : n = 1 <;> simp [demoTargets, h]

/-! ### Claim theorems -/

/-- C7: in every script, on darwin a pre-existing value of
`PYTORCH_ENABLE_MPS_FALLBACK` is preserved unchanged, on darwin without a
pre-existing value it is set to "1", and on any other platform the
environment is not modified. -/
theorem c7_mps_fallback_env (wd : DemoWorld) (wi : InferWorld) (ww : WebuiWorld) :
    ((demoRun wd).envMPSAfter =
      match wd.darwin, wd.envMPS with
      | true, some v => some v
      | true, none => some "1"
      | false, pre => pre) ∧
    ((inferRun wi).envMPSAfter =
      match wi.darwin, wi.envMPS with
      | true, some v => some v
      | true, none => some "1"
      | false, pre => pre) ∧
    ((webuiRun ww).envMPSAfter =
      match ww.darwin, ww.envMPS with
      | true, some v => some v
      | true, none => some "1"
      | false, pre => pre) :=
  ⟨by rw [demoRun_env, envAfter_cases],
   by rw [inferRun_env, envAfter_cases],
   by rw [webuiRun_env, envAfter_cases]⟩

/-- C10: in `spk_infer.py`, with `--source=custom` and an empty
`--custom-path` the load call is `chat.load(source="custom")` without a
`custom_path` argument; the custom-path branch is taken only when the source
is custom and the path non-empty; for other sources the custom path is
ignored entirely. -/
theorem c10_custom_source_load (w : InferWorld) (a : InferArgs) (cp : String) :
    (w.spkFound = true →
      (inferRun w).events[3]? =
        some (.chatLoad (loadCall w.args).1 (loadCall w.args).2 w.loadOk)) ∧
    (a.source = .custom → a.customPath = "" → loadCall a = ("custom", none)) ∧
    (a.source ≠ .custom →
      loadCall ⟨a.spkPath, a.text, a.output, a.source, cp⟩ =
        (a.source.str, none)) ∧
    ((loadCall a).2 ≠ none → a.source = .custom ∧ a.customPath ≠ "") := by
  refine ⟨?_, ?_, ?_, ?_⟩
  · intro h
    obtain ⟨dar, env, args, sf, lo, wavs⟩ := w
    subst h
    cases lo <;> cases wavs <;> simp [inferRun]
  · intro h1 h2
    simp [loadCall, h1, h2, Source.str]
  · intro h
    simp [loadCall, h]
  · intro h
    by_cases hc : a.source = Source.custom ∧ ¬a.customPath = ""
    · exact ⟨hc.1, hc.2⟩
    · exact absurd (by simp [loadCall, hc]) h

/-- C10 witness: the theorem applied at concrete worlds and arguments. -/
theorem c10_witness :
    (inferRun wInferCustomEmpty).events[3]? =
      some (.chatLoad "custom" none true) ∧
    loadCall argsCustomEmpty = ("custom", none) ∧
    loadCall ⟨"p.pt", "hi", "o.wav", .localSrc, "ignored"⟩ = ("local", none) ∧
    (Source.custom = Source.custom ∧ "x" ≠ "") := by
  refine ⟨?_, ?_, ?_, ?_⟩
  · exact (c10_custom_source_load wInferCustomEmpty argsCustomEmpty "cp").1 rfl
  · exact (c10_custom_source_load wInferCustomEmpty argsCustomEmpty "cp").2.1
      rfl rfl
  · exact (c10_custom_source_load wInferCustomEmpty
      ⟨"p.pt", "hi", "o.wav", .localSrc, "old"⟩ "ignored").2.2.1 (by decide)
  · exact (c10_custom_source_load wInferCustomEmpty
      ⟨"p.pt", "hi", "o.wav", .custom, "x"⟩ "cp").2.2.2 (by decide)

/-- C2: in every script, a run in which a required input file is missing
(the speaker embedding or input text file, or the sha256 manifest of the
smoke test when audio is not skipped) exits with a non-zero code. -/
theorem c2_missing_input_nonzero (wd : DemoWorld) (wi : InferWorld)
    (ww : WebuiWorld) :
    ((wd.speakerFound = false ∨ wd.textFound = false) →
      (demoRun wd).outcome.exitCode ≠ 0) ∧
    (wi.spkFound = false → (inferRun wi).outcome.exitCode ≠ 0) ∧
    (ww.args.skipAudio = false → ww.shaMapFound = false →
      (webuiRun ww).outcome.exitCode ≠ 0) := by
  refine ⟨?_, ?_, ?_⟩
  · intro h hc
    have h0 := (demoRun_exit0_iff wd).mp hc
    rcases h with h | h <;> rw [h] at h0 <;> simp at h0
  · intro h hc
    have h0 := (inferRun_exit0_iff wi).mp hc
    rw [h] at h0
    simp at h0
  · intro hskip hsha hc
    have h0 := (webuiRun_exit0_iff ww).mp hc
    rw [hskip, hsha] at h0
    simp at h0

/-- C2 witness: the theorem applied at concrete worlds with a missing
speaker embedding, a missing text file, and a missing sha256 manifest. -/
theorem c2_witness :
    (demoRun wDemoNoSpk).outcome.exitCode ≠ 0 ∧
    (demoRun wDemoNoText).outcome.exitCode ≠ 0 ∧
    (inferRun wInferNoSpk).outcome.exitCode ≠ 0 ∧
    (webuiRun wWebuiNoSha).outcome.exitCode ≠ 0 :=
  ⟨(c2_missing_input_nonzero wDemoNoSpk wInferNoSpk wWebuiNoSha).1 (Or.inl rfl),
   (c2_missing_input_nonzero wDemoNoText wInferNoSpk wWebuiNoSha).1 (Or.inr rfl),
   (c2_missing_input_nonzero wDemoNoSpk wInferNoSpk wWebuiNoSha).2.1 rfl,
   (c2_missing_input_nonzero wDemoNoSpk wInferNoSpk wWebuiNoSha).2.2 rfl rfl⟩

/-- C1 counterexample: in `webui_smoke_test.py`, when the required module
`torch` fails to import, no exception is raised at the point of failure:
the loop finishes, an error is logged afterwards, and `main` returns 1,
so the process ends by `SystemExit(1)` rather than by an exception raised
at the failed import. -/
theorem c1_counterexample :
    ((check_modules wTorchMissing.importable).any (fun s => !s.2) = true) ∧
    (webuiRun wTorchMissing).outcome = .exited 1 ∧
    (webuiRun wTorchMissing).events.getLast? =
      some (.logError "Install the missing modules above") := by
  refine ⟨by decide, by decide, by decide⟩

/-- C1 (amended): in `spk_infer.py` and `spk_emb_demo.py` a missing
required file or a false `chat.load` raises an exception immediately and no
later step of the script executes (the failing step is the last event); in
`webui_smoke_test.py` a failed module import, a failed `check_all_assets`,
or a failed `chat.load` is reported by logging and an early return instead
of an exception, the process exits with code 1, and no synthesis is
attempted. -/
theorem c1_amended_fail_fast (wd : DemoWorld) (wi : InferWorld)
    (ww : WebuiWorld) :
    (wd.speakerFound = false →
      demoRun wd = ⟨[.fileCheck SPEAKER_PATH false],
        .raised (.fileNotFound "Speaker embedding file not found"), [],
        envAfter wd.darwin wd.envMPS⟩) ∧
    (wd.speakerFound = true → wd.loadOk = false →
      demoRun wd = ⟨[.fileCheck SPEAKER_PATH true, .torchLoad SPEAKER_PATH,
        .chatInit, .chatLoad "local" none false],
        .raised (.runtimeError "Failed to load ChatTTS weights from local asset directory."),
        [], envAfter wd.darwin wd.envMPS⟩) ∧
    (wd.speakerFound = true → wd.loadOk = true → wd.textFound = false →
      demoRun wd = ⟨[.fileCheck SPEAKER_PATH true, .torchLoad SPEAKER_PATH,
        .chatInit, .chatLoad "local" none true, .fileCheck TEXT_FILE false],
        .raised (.fileNotFound "Input text file not found"), [],
        envAfter wd.darwin wd.envMPS⟩) ∧
    (wi.spkFound = false →
      inferRun wi = ⟨[.fileCheck wi.args.spkPath false],
        .raised (.fileNotFound "Speaker embedding file not found"), [],
        envAfter wi.darwin wi.envMPS⟩) ∧
    (wi.spkFound = true → wi.loadOk = false →
      inferRun wi = ⟨[.fileCheck wi.args.spkPath true, .torchLoad wi.args.spkPath,
        .chatInit, .chatLoad (loadCall wi.args).1 (loadCall wi.args).2 false],
        .raised (.runtimeError "Failed to load ChatTTS weights. Check --source/--custom-path."),
        [], envAfter wi.darwin wi.envMPS⟩) ∧
    ((check_modules ww.importable).all (fun s => s.2) = false →
      (webuiRun ww).outcome = .exited 1 ∧
      hasInfer (webuiRun ww).events = false) ∧
    (ww.args.skipAudio = false → ww.shaMapFound = true → ww.assetsOk = false →
      (webuiRun ww).outcome = .exited 1 ∧
      hasInfer (webuiRun ww).events = false) ∧
    (ww.args.skipAudio = false → ww.shaMapFound = true → ww.loadOk = false →
      (webuiRun ww).outcome = .exited 1 ∧
      hasInfer (webuiRun ww).events = false) :=
  ⟨fun h => demoRun_no_speaker wd h,
   fun h1 h2 => demoRun_load_fail wd h1 h2,
   fun h1 h2 h3 => demoRun_no_text wd h1 h2 h3,
   fun h => inferRun_no_spk wi h,
   fun h1 h2 => inferRun_load_fail wi h1 h2,
   fun h => webuiRun_modules_fail ww h,
   fun h1 h2 h3 => webuiRun_assets_fail ww h1 h2 h3,
   fun h1 h2 h3 => webuiRun_load_fail ww h1 h2 h3⟩

/-- C1 witness: the amended theorem applied at concrete failing worlds. -/
theorem c1_amended_witness :
    (demoRun wDemoNoSpk = ⟨[.fileCheck SPEAKER_PATH false],
      .raised (.fileNotFound "Speaker embedding file not found"), [], none⟩) ∧
    (demoRun wDemoLoadFail = ⟨[.fileCheck SPEAKER_PATH true,
      .torchLoad SPEAKER_PATH, .chatInit, .chatLoad "local" none false],
      .raised (.runtimeError "Failed to load ChatTTS weights from local asset directory."),
      [], none⟩) ∧
    (demoRun wDemoNoText = ⟨[.fileCheck SPEAKER_PATH true,
      .torchLoad SPEAKER_PATH, .chatInit, .chatLoad "local" none true,
      .fileCheck TEXT_FILE false],
      .raised (.fileNotFound "Input text file not found"), [], none⟩) ∧
    (inferRun wInferNoSpk = ⟨[.fileCheck "pt/seed_2279_restored_emb.pt" false],
      .raised (.fileNotFound "Speaker embedding file not found"), [], none⟩) ∧
    (inferRun wInferLoadFail = ⟨[.fileCheck "pt/seed_2279_restored_emb.pt" true,
      .torchLoad "pt/seed_2279_restored_emb.pt", .chatInit,
      .chatLoad "local" none false],
      .raised (.runtimeError "Failed to load ChatTTS weights. Check --source/--custom-path."),
      [], none⟩) ∧
    ((webuiRun wTorchMissing).outcome = .exited 1 ∧
      hasInfer (webuiRun wTorchMissing).events = false) ∧
    ((webuiRun wAssetsBad).outcome = .exited 1 ∧
      hasInfer (webuiRun wAssetsBad).events = false) ∧
    ((webuiRun wWebuiLoadFail).outcome = .exited 1 ∧
      hasInfer (webuiRun wWebuiLoadFail).events = false) :=
  ⟨(c1_amended_fail_fast wDemoNoSpk wInferNoSpk wTorchMissing).1 rfl,
   (c1_amended_fail_fast wDemoLoadFail wInferNoSpk wTorchMissing).2.1 rfl rfl,
   (c1_amended_fail_fast wDemoNoText wInferNoSpk wTorchMissing).2.2.1 rfl rfl rfl,
   (c1_amended_fail_fast wDemoNoSpk wInferNoSpk wTorchMissing).2.2.2.1 rfl,
   (c1_amended_fail_fast wDemoNoSpk wInferLoadFail wTorchMissing).2.2.2.2.1 rfl rfl,
   (c1_amended_fail_fast wDemoNoSpk wInferNoSpk wTorchMissing).2.2.2.2.2.1 (by decide),
   (c1_amended_fail_fast wDemoNoSpk wInferNoSpk wAssetsBad).2.2.2.2.2.2.1 rfl rfl rfl,
   (c1_amended_fail_fast wDemoNoSpk wInferNoSpk wWebuiLoadFail).2.2.2.2.2.2.2 rfl rfl rfl⟩

/-- C3 counterexample: a `webui_smoke_test.py` run in which every required
module imports, yet the process exits with code 1 because `check_all_assets`
fails on the weight files, so importability alone does not make the smoke
test report success. -/
theorem c3_counterexample :
    ((check_modules wAssetsBad.importable).all (fun s => s.2) = true) ∧
    (webuiRun wAssetsBad).outcome.exitCode = 1 :=
  ⟨by decide, by decide⟩

/-- C3 (amended): when every module in REQUIRED_MODULES is importable, the
smoke test exits with code 0 provided `--skip-audio` is given, or provided
the ChatTTS import, the asset checksum verification, the model load and the
synthesis all succeed as well. -/
theorem c3_amended_success (w : WebuiWorld)
    (hmod : (check_modules w.importable).all (fun s => s.2) = true) :
    (w.args.skipAudio = true → (webuiRun w).outcome = .exited 0) ∧
    (w.chatImportOk = true → w.shaMapFound = true → w.assetsOk = true →
      w.loadOk = true → w.wavs ≠ [] → (webuiRun w).outcome = .exited 0) :=
  ⟨fun hs => outcome_eq_of_exitCode_zero _
      ((webuiRun_exit0_iff w).mpr ⟨hmod, Or.inl hs⟩),
   fun h1 h2 h3 h4 h5 => outcome_eq_of_exitCode_zero _
      ((webuiRun_exit0_iff w).mpr ⟨hmod, Or.inr ⟨h1, h2, h3, h4, h5⟩⟩)⟩

/-- C3 witness: the amended theorem applied at a skip-audio world and at a
fully successful world. -/
theorem c3_witness :
    (webuiRun wWebuiSkip).outcome = .exited 0 ∧
    (webuiRun wWebuiGood).outcome = .exited 0 :=
  ⟨(c3_amended_success wWebuiSkip (by decide)).1 rfl,
   (c3_amended_success wWebuiGood (by decide)).2 rfl rfl rfl rfl (by decide)⟩

/-- C4 counterexample: a successful `spk_emb_demo.py` run whose input file
holds two text lines receives two waveforms and writes them only to the
derived indexed paths, so no file is created at the configured
`OUTPUT_FILE`. -/
theorem c4_counterexample :
    (demoRun wDemoTwo).outcome = .exited 0 ∧
    (demoRun wDemoTwo).files ≠ [] ∧
    ((demoRun wDemoTwo).files.all (fun f => f.1 ≠ OUTPUT_FILE)) = true :=
  ⟨by decide, by decide, by decide⟩

/-- C4 (amended): with a valid embedding and text and successful library
calls, `spk_infer.py` and `webui_smoke_test.py` write exactly one non-empty
file at the configured output path; `spk_emb_demo.py` writes at least one
non-empty file, located at the configured `OUTPUT_FILE` when exactly one
waveform is returned and at derived indexed paths otherwise. -/
theorem c4_amended_output_files (wd : DemoWorld) (wi : InferWorld)
    (ww : WebuiWorld) :
    (wi.spkFound = true → wi.loadOk = true →
      ∀ wav0 rest, wi.wavs = wav0 :: rest →
        (inferRun wi).files = [(wi.args.output, wavBytes wav0)] ∧
        0 < wavBytes wav0) ∧
    ((check_modules ww.importable).all (fun s => s.2) = true →
      ww.args.skipAudio = false → ww.chatImportOk = true →
      ww.shaMapFound = true → ww.assetsOk = true → ww.loadOk = true →
      ∀ wav0 rest, ww.wavs = wav0 :: rest →
        (webuiRun ww).files = [(ww.args.output, wavBytes wav0)] ∧
        0 < wavBytes wav0) ∧
    (wd.speakerFound = true → wd.loadOk = true → wd.textFound = true →
      demoTexts wd.textContent ≠ [] → wd.wavs ≠ [] →
        (demoRun wd).files ≠ [] ∧
        (∀ f ∈ (demoRun wd).files, 0 < f.2) ∧
        (wd.wavs.length = 1 →
          (demoRun wd).files.map (fun f => f.1) = [OUTPUT_FILE])) := by
  refine ⟨?_, ?_, ?_⟩
  · intro h1 h2 wav0 rest hw
    obtain ⟨dar, env, args, sf, lo, wavs⟩ := wi
    simp only at h1 h2 hw
    subst h1
    subst h2
    subst hw
    exact ⟨by simp [inferRun], by simp [wavBytes]⟩
  · intro hmod hskip hci hsha hao hlo wav0 rest hw
    obtain ⟨dar, env, ⟨mr, tx, out, spk, skip⟩, imp, ci, sha, ao, lo, wavs⟩ := ww
    simp only at hmod hskip hci hsha hao hlo hw
    subst hskip
    subst hci
    subst hsha
    subst hao
    subst hlo
    subst hw
    have hmiss : ((check_modules imp).filter (fun s => !s.2)).map (fun s => s.1) = [] :=
      (missing_nil_iff _).mpr hmod
    exact ⟨by simp [webuiRun, hmiss], by simp [wavBytes]⟩
  · intro h1 h2 h3 h4 h5
    obtain ⟨dar, env, sf, lo, tf, tc, wavs⟩ := wd
    simp only at h1 h2 h3 h4 h5
    subst h1
    subst h2
    subst h3
    have hfiles : (demoRun ⟨dar, env, true, true, true, tc, wavs⟩).files =
        (wavs.zip (demoTargets wavs.length)).map (fun p => (p.2, wavBytes p.1)) := by
      simp [demoRun, h4]
    refine ⟨?_, ?_, ?_⟩
    · rw [hfiles]
      have hlen : (wavs.zip (demoTargets wavs.length)).length = wavs.length := by
        rw [List.length_zip, demoTargets_length]
        by_cases h : wavs.length = 1 <;> simp [h]
      intro hnil
      rw [← List.length_eq_zero] at hnil
      rw [List.length_map, hlen] at hnil
      exact h5 (List.length_eq_zero.mp hnil)
    · rw [hfiles]
      intro f hf
      obtain ⟨p, _, rfl⟩ := List.mem_map.mp hf
      simp [wavBytes]
    · intro hone
      obtain ⟨wav0, hw⟩ := List.length_eq_one.mp hone
      simp only at hw
      rw [hfiles, hw]
      simp [demoTargets_one]

/-- C4 witness: the amended theorem applied at fully successful worlds for
each script, including the single-waveform demo world. -/
theorem c4_witness :
    ((inferRun wInferGood).files = [("spk_control.wav", 52)] ∧ 0 < 52) ∧
    ((webuiRun wWebuiGood).files = [("smoke_test.wav", 52)] ∧ 0 < 52) ∧
    ((demoRun wDemoOne).files ≠ [] ∧
      (∀ f ∈ (demoRun wDemoOne).files, 0 < f.2)) ∧
    (demoRun wDemoOne).files.map (fun f => f.1) = [OUTPUT_FILE] := by
  have hi := (c4_amended_output_files wDemoOne wInferGood wWebuiGood).1
    rfl rfl [1, 2] [] rfl
  have hw := (c4_amended_output_files wDemoOne wInferGood wWebuiGood).2.1
    (by decide) rfl rfl rfl rfl rfl [1, 2] [] rfl
  have hd := (c4_amended_output_files wDemoOne wInferGood wWebuiGood).2.2
    rfl rfl rfl (by decide) (by decide)
  exact ⟨hi, hw, ⟨hd.1, hd.2.1⟩, hd.2.2 rfl⟩

/-- C5 counterexample: a successful `spk_emb_demo.py` run checks the
existence of the input text file after the model client is initialized and
loaded, violating the claimed order in which all input-file validation
precedes model initialization. -/
theorem c5_counterexample :
    (demoRun wDemoOne).outcome = .exited 0 ∧
    fileCheckAfterInit (demoRun wDemoOne).events = true :=
  ⟨by decide, by decide⟩

/-- C5 (amended): `spk_infer.py` and `webui_smoke_test.py` follow the order
configuration and validation, then model-client initialization, then one
inference, then persistence, with no input-file validation after model
initialization; `spk_emb_demo.py` follows the same order except that the
input text file is located, validated and read between model initialization
and inference. -/
theorem c5_amended_phase_order (wi : InferWorld) (ww : WebuiWorld)
    (wd : DemoWorld) :
    isSortedLe (phases (inferRun wi).events) = true ∧
    fileCheckAfterInit (inferRun wi).events = false ∧
    isSortedLe (phases (webuiRun ww).events) = true ∧
    fileCheckAfterInit (webuiRun ww).events = false ∧
    isSortedLe (demoPhases (demoRun wd).events) = true :=
  ⟨inferRun_phases_sorted wi, inferRun_no_check_after_init wi,
   webuiRun_phases_sorted ww, webuiRun_no_check_after_init ww,
   demoRun_phases_sorted wd⟩

/-- C6: in every `webui_smoke_test.py` run that reaches `chat.infer`, a
`check_modules` report in which every module imported and a successful
`check_all_assets` verification both occur strictly before the inference
call. -/
theorem c6_checks_before_infer (w : WebuiWorld)
    (h : hasInfer (webuiRun w).events = true) :
    (beforeInfer (webuiRun w).events).any isModulesAllOk = true ∧
    (beforeInfer (webuiRun w).events).any isAssetsOkEv = true :=
  webuiRun_infer_checks w h

/-- C6 witness: the theorem applied at a fully successful smoke-test
world. -/
theorem c6_witness :
    (beforeInfer (webuiRun wWebuiGood).events).any isModulesAllOk = true ∧
    (beforeInfer (webuiRun wWebuiGood).events).any isAssetsOkEv = true :=
  c6_checks_before_infer wWebuiGood (by decide)

/-- C8: the list `spk_emb_demo.py` passes to `chat.infer` is exactly the
lines of the input file minus those blank after stripping and those whose
first character is a hash, each kept line stripped of its trailing newline
and surrounding whitespace; when that list is empty a `ValueError` is raised
and no inference runs; and a line with leading whitespace before the hash is
kept. -/
theorem c8_line_filtering (content : List Char) (wd : DemoWorld)
    (ts : List String) :
    (demoTextsL content = specTextsL content) ∧
    (Event.inferEv ts ∈ (demoRun wd).events →
      ts = (specTextsL wd.textContent).map String.mk) ∧
    (wd.speakerFound = true → wd.loadOk = true → wd.textFound = true →
      demoTextsL wd.textContent = [] →
        (demoRun wd).outcome = .raised (.valueError "No valid text lines found") ∧
        hasInfer (demoRun wd).events = false) ∧
    (demoTextsL ("  # kept\n".toList) = ["# kept".toList]) :=
  ⟨demoTextsL_eq_specTextsL content,
   fun h => demoRun_infer_texts wd ts h,
   fun h1 h2 h3 h4 => demoRun_empty_texts wd h1 h2 h3 h4,
   by decide⟩

/-- C8 witness: the theorem applied at a world whose input file has one
plain line, and at a world whose input file holds only a comment and a
blank line. -/
theorem c8_witness :
    ((["a"] : List String) = (specTextsL wDemoOne.textContent).map String.mk) ∧
    ((demoRun wDemoEmpty).outcome = .raised (.valueError "No valid text lines found") ∧
      hasInfer (demoRun wDemoEmpty).events = false) :=
  ⟨(c8_line_filtering [] wDemoOne ["a"]).2.1 (by decide),
   (c8_line_filtering [] wDemoEmpty ["a"]).2.2.1 rfl rfl rfl (by decide)⟩

/-- C9: in a successful `spk_emb_demo.py` run, a single returned waveform is
written to `OUTPUT_FILE` itself, and `n > 1` returned waveforms are written
to the derived paths `base_name_i + suffix` for `i` from 0 to `n-1`, one
file per waveform with pairwise distinct paths. -/
theorem c9_waveform_targets (wd : DemoWorld)
    (h1 : wd.speakerFound = true) (h2 : wd.loadOk = true)
    (h3 : wd.textFound = true) (h4 : demoTexts wd.textContent ≠ []) :
    (∀ wav0, wd.wavs = [wav0] →
      (demoRun wd).files = [(OUTPUT_FILE, wavBytes wav0)]) ∧
    (1 < wd.wavs.length →
      (demoRun wd).files.map (fun f => f.1) =
        (List.range wd.wavs.length).map demoTarget ∧
      ((demoRun wd).files.map (fun f => f.1)).Nodup ∧
      (demoRun wd).files.length = wd.wavs.length) := by
  obtain ⟨dar, env, sf, lo, tf, tc, wavs⟩ := wd
  simp only at h1 h2 h3 h4
  subst h1
  subst h2
  subst h3
  have hfiles : (demoRun ⟨dar, env, true, true, true, tc, wavs⟩).files =
      (wavs.zip (demoTargets wavs.length)).map (fun p => (p.2, wavBytes p.1)) := by
    simp [demoRun, h4]
  refine ⟨?_, ?_⟩
  · intro wav0 hw
    simp only at hw
    rw [hfiles, hw]
    simp [demoTargets_one]
  · intro hlen
    simp only at hlen
    have hne : wavs.length ≠ 1 := by omega
    have htar : demoTargets wavs.length = (List.range wavs.length).map demoTarget :=
      demoTargets_of_ne_one _ hne
    have htlen : (demoTargets wavs.length).length = wavs.length := by
      rw [htar]
      simp
    have hmapfst : ((wavs.zip (demoTargets wavs.length)).map
        (fun p => (p.2, wavBytes p.1))).map (fun f => f.1) =
        demoTargets wavs.length := by
      rw [List.map_map]
      rw [show ((fun f => f.1) ∘ fun p : Wav × String => (p.2, wavBytes p.1)) =
        (fun p : Wav × String => p.2) from rfl]
      exact List.map_snd_zip _ _ (le_of_eq htlen)
    refine ⟨?_, ?_, ?_⟩
    · rw [hfiles, hmapfst, htar]
    · rw [hfiles, hmapfst, htar]
      exact (List.nodup_range _).map demoTarget_injective
    · rw [hfiles]
      simp [List.length_zip, htlen]

/-- C9 witness: the theorem applied at single-waveform and two-waveform
demo worlds. -/
theorem c9_witness :
    (demoRun wDemoOne).files = [(OUTPUT_FILE, 48)] ∧
    ((demoRun wDemoTwo).files.map (fun f => f.1) =
        (List.range 2).map demoTarget ∧
      ((demoRun wDemoTwo).files.map (fun f => f.1)).Nodup ∧
      (demoRun wDemoTwo).files.length = 2) :=
  ⟨(c9_waveform_targets wDemoOne rfl rfl rfl (by decide)).1 [1] rfl,
   (c9_waveform_targets wDemoTwo rfl rfl rfl (by decide)).2 (by decide)⟩

end ChatTTSScripts
